import Mathlib

/-!
# Verification of `src/main/tusb_msc_main.cpp` (M5AtomS3 USB MSC example)

Shallow embedding of the single source file `tusb_msc_main.cpp`.  The
program is one sequential bring-up routine `app_main` that calls external
libraries (display, SPI/SD driver, FAT mount, TinyUSB stack) and then
idles in a button-polling loop.

The embedding models every library call by its return code, drawn from an
environment `Env` (the external world), and `app_main` as a function
producing the list of observable actions (the *trace*) together with an
`Outcome`.  The two loops of the program are modelled with explicit
bounds: `sdFuel` bounds the number of `sdmmc_card_init` attempts we
observe, and `loopIters` bounds the number of iterations of the final
idle loop we observe (both loops are unbounded in the program; an
exhausted bound yields the outcomes `sdRetrying` / `looping`, meaning
"still inside that loop").

Machine error codes (`esp_err_t`) are modelled as `Int`, with `ESP_OK = 0`.
The SD-card pointer returned by `malloc` is modelled as `Option Unit`
(`none` = `NULL`).
-/

/-- Model of `esp_err_t`: `0` is `ESP_OK`; any other value is an error code. -/
abbrev EspErr := Int

/-- Model of `ESP_OK` -/
def ESP_OK : EspErr := 0

/-- Model of `ESP_FAIL` -/
def ESP_FAIL : EspErr := -1

/-! ## TinyUSB descriptor data (lines 44-97 of the source)

All three descriptor objects are compile-time constants in the source
(`static uint8_t const desc_configuration[]`, `static tusb_desc_device_t
descriptor_config`, `static char const *string_desc_arr[]`).  They are
modelled as Lean constants holding exactly the field values written in
the source. -/

/-- Model of `TUSB_DESC_DEVICE` (TinyUSB descriptor-type code for a device descriptor). -/
def TUSB_DESC_DEVICE : Nat := 0x01

/-- Model of `TUSB_CLASS_MISC` -/
def TUSB_CLASS_MISC : Nat := 0xEF

/-- Model of `MISC_SUBCLASS_COMMON` -/
def MISC_SUBCLASS_COMMON : Nat := 0x02

/-- Model of `MISC_PROTOCOL_IAD` -/
def MISC_PROTOCOL_IAD : Nat := 0x01

/-- Model of `CFG_TUD_ENDPOINT0_SIZE` (TinyUSB default endpoint-0 size). -/
def CFG_TUD_ENDPOINT0_SIZE : Nat := 64

/-- Model of `ITF_NUM_MSC` from the anonymous enum at line 49. -/
def ITF_NUM_MSC : Nat := 0

/-- Model of `ITF_NUM_TOTAL` from the anonymous enum at line 49. -/
def ITF_NUM_TOTAL : Nat := 1

/-- Model of `EDPT_MSC_OUT` (line 55). -/
def EDPT_MSC_OUT : Nat := 0x01

/-- Model of `EDPT_MSC_IN` (line 56). -/
def EDPT_MSC_IN : Nat := 0x81

/-- Model of `TUD_CONFIG_DESC_LEN` (TinyUSB: 9 bytes). -/
def TUD_CONFIG_DESC_LEN : Nat := 9

/-- Model of `TUD_MSC_DESC_LEN` (TinyUSB: 23 bytes). -/
def TUD_MSC_DESC_LEN : Nat := 23

/-- Model of `TUSB_DESC_TOTAL_LEN` (line 47). -/
def TUSB_DESC_TOTAL_LEN : Nat := TUD_CONFIG_DESC_LEN + TUD_MSC_DESC_LEN

/-- Model of `TUSB_DESC_CONFIG_ATT_REMOTE_WAKEUP` -/
def TUSB_DESC_CONFIG_ATT_REMOTE_WAKEUP : Nat := 0x20

/-- Model of `TUD_OPT_HIGH_SPEED`: the ESP32-S3 USB-OTG PHY is full speed. -/
def TUD_OPT_HIGH_SPEED : Bool := false

/-- One entry of the `desc_configuration` byte array, kept at the level of
the TinyUSB helper macro that produced it, with the arguments the source
passes (lines 59-68). -/
inductive DescItem where
  | configDescriptor (configNum itfCount strIdx totalLen attrib powerMa : Nat)
  | mscDescriptor (itfNum strIdx epOut epIn epSize : Nat)
  deriving DecidableEq, Repr

/-- Model of `desc_configuration` (lines 59-68): one `TUD_CONFIG_DESCRIPTOR` and one
`TUD_MSC_DESCRIPTOR`, with the literal arguments of the source. -/
def desc_configuration : List DescItem :=
  [DescItem.configDescriptor 1 ITF_NUM_TOTAL 0 TUSB_DESC_TOTAL_LEN
      TUSB_DESC_CONFIG_ATT_REMOTE_WAKEUP 100,
   DescItem.mscDescriptor ITF_NUM_MSC 0 EDPT_MSC_OUT EDPT_MSC_IN
      (if TUD_OPT_HIGH_SPEED then 512 else 64)]

/-- Model of `tusb_desc_device_t` field layout. -/
structure DeviceDescriptor where
  bLength : Nat
  bDescriptorType : Nat
  bcdUSB : Nat
  bDeviceClass : Nat
  bDeviceSubClass : Nat
  bDeviceProtocol : Nat
  bMaxPacketSize0 : Nat
  idVendor : Nat
  idProduct : Nat
  bcdDevice : Nat
  iManufacturer : Nat
  iProduct : Nat
  iSerialNumber : Nat
  bNumConfigurations : Nat
  deriving DecidableEq, Repr

/-- Model of `descriptor_config` (lines 70-85).  `sizeof(tusb_desc_device_t)` is 18. -/
def descriptor_config : DeviceDescriptor :=
  { bLength := 18
    bDescriptorType := TUSB_DESC_DEVICE
    bcdUSB := 0x0200
    bDeviceClass := TUSB_CLASS_MISC
    bDeviceSubClass := MISC_SUBCLASS_COMMON
    bDeviceProtocol := MISC_PROTOCOL_IAD
    bMaxPacketSize0 := CFG_TUD_ENDPOINT0_SIZE
    idVendor := 0x303A
    idProduct := 0x4002
    bcdDevice := 0x100
    iManufacturer := 0x01
    iProduct := 0x02
    iSerialNumber := 0x03
    bNumConfigurations := 0x01 }

/-- Model of `string_desc_arr` (lines 87-93); entry 0 is the two-byte English
language id `{0x09, 0x04}`. -/
def string_desc_arr : List String :=
  ["\x09\x04", "TinyUSB", "TinyUSB Device", "123456", "Example MSC"]

/-- Model of `tinyusb_config_t` as filled at lines 234-241. -/
structure TinyusbConfig where
  device_descriptor : DeviceDescriptor
  string_descriptor : List String
  string_descriptor_count : Nat
  external_phy : Bool
  configuration_descriptor : List DescItem
  deriving DecidableEq, Repr

/-- Model of `tusb_cfg` (lines 234-241): the configuration record passed to
`tinyusb_driver_install`; `string_descriptor_count` is
`sizeof(string_desc_arr)/sizeof(string_desc_arr[0])`. -/
def tusb_cfg : TinyusbConfig :=
  { device_descriptor := descriptor_config
    string_descriptor := string_desc_arr
    string_descriptor_count := string_desc_arr.length
    external_phy := false
    configuration_descriptor := desc_configuration }

/-- Model of `BASE_PATH` (line 97). -/
def BASE_PATH : String := "/data"

/-- Model of `MOUNT_POINT` (line 35); defined in the source but never used. -/
def MOUNT_POINT : String := "/sdcard"

/-! ## Observable actions -/

/-- One observable action of `app_main`.  Library calls carry the values
the program passes to them and the return code the environment gives
back; `card` arguments are the (possibly `NULL`) SD-card pointer. -/
inductive Ev where
  | m5Begin
  | displayConfig
  | pushImage (img : Nat)
  | logI (msg : String)
  | logE (msg : String)
  | logD (msg : String)
  | logDirMissing
  | logDirUnreadable
  | mallocCard (ok : Bool)
  | freeCard
  | spiBusInitialize (ret : EspErr)
  | sdspiHostInitDevice (ret : EspErr)
  | sdmmcCardInit (card : Option Unit) (ret : EspErr)
  | delayMs (ms : Nat)
  | cardPrintInfo (card : Option Unit)
  | mscStorageInitSdmmc (card : Option Unit) (ret : EspErr)
  | mscStorageMount (path : String) (ret : EspErr)
  | opendir (path : String) (ok : Bool)
  | printEntry (name : String)
  | fatInfo (path : String) (ret : EspErr)
  | drawFreeString (freeBytes : Nat)
  | drawTotalString (totalBytes : Nat)
  | tusbDriverInstall (cfg : TinyusbConfig) (ret : EspErr)
  | m5Update
  | espRestart
  deriving DecidableEq, Repr

/-- How a run of `app_main` (observed up to the given bounds) ended. -/
inductive Outcome where
  | earlyReturn
  | sdRetrying
  | aborted (site : String)
  | looping
  | restarted
  deriving DecidableEq, Repr

/-- The external world: return codes and results of every library call
`app_main` makes.  `sdmmcCardInitRet k` is the return code of the `k`-th
`sdmmc_card_init` attempt; `btnClicked k` tells whether `M5.BtnA.wasClicked()`
is true in the `k`-th idle-loop iteration. -/
structure Env where
  mallocOk : Bool
  spiBusInitRet : EspErr
  sdspiHostInitRet : EspErr
  sdmmcCardInitRet : Nat → EspErr
  mscStorageInitRet : EspErr
  mscStorageMountRet : EspErr
  opendirOk : Bool
  opendirErrnoENOENT : Bool
  dirEntries : List String
  fatInfoRet : EspErr
  fatInfoTotal : Nat
  fatInfoFree : Nat
  tusbInstallRet : EspErr
  btnClicked : Nat → Bool

/-- The value of the `card` pointer after line 143: non-`NULL` exactly
when `malloc` succeeded. -/
def Env.card (env : Env) : Option Unit := if env.mallocOk then some () else none

/-! ## The program -/

/-- Trace of lines 129-189 up to and including the `spi_bus_initialize`
call: display setup, the `malloc` of the card structure (with its
debug log on `NULL`), the two info logs, and the SPI bus call. -/
def preTrace (env : Env) : List Ev :=
  [Ev.m5Begin, Ev.displayConfig, Ev.pushImage 1,
   Ev.logI "Initializing storage...",
   Ev.mallocCard env.mallocOk]
  ++ (if env.mallocOk then [] else [Ev.logD "could not locate new sdmmc_card_t"])
  ++ [Ev.logI "Initializing SD card", Ev.logI "Using SPI peripheral",
      Ev.spiBusInitialize env.spiBusInitRet]

/-- The retry loop of lines 191-194:
`while (sdmmc_card_init(&host, card) != ESP_OK) { log; delay 1000ms }`.
`k` is the index of the next attempt, the fuel bounds how many attempts
we observe; the `Bool` is `true` iff some observed attempt returned
`ESP_OK` (so control left the loop). -/
def sdInitLoopAux (ret : Nat → EspErr) (card : Option Unit) (k : Nat) :
    Nat → List Ev × Bool
  | 0 => ([], false)
  | fuel + 1 =>
    if ret k = ESP_OK then
      ([Ev.sdmmcCardInit card (ret k)], true)
    else
      let r := sdInitLoopAux ret card (k + 1) fuel
      (Ev.sdmmcCardInit card (ret k) ::
        Ev.logE "Failed to initialize sdcard." ::
        Ev.delayMs 1000 :: r.1, r.2)

/-- Model of `_mount` (lines 102-125): log, `tinyusb_msc_storage_mount(BASE_PATH)`
under `ESP_ERROR_CHECK` (the `Bool` result is `true` iff that check
aborted), then `opendir(BASE_PATH)` and either the error log picked by
`errno` or one `printf` per directory entry. -/
def mountRun (env : Env) : List Ev × Bool :=
  let t0 := [Ev.logI "Mount storage...",
             Ev.mscStorageMount BASE_PATH env.mscStorageMountRet]
  if env.mscStorageMountRet ≠ ESP_OK then (t0, true)
  else
    let t1 := t0 ++ [Ev.logI "ls command output:",
                     Ev.opendir BASE_PATH env.opendirOk]
    if env.opendirOk then
      (t1 ++ env.dirEntries.map Ev.printEntry, false)
    else
      (t1 ++ [if env.opendirErrnoENOENT then Ev.logDirMissing
              else Ev.logDirUnreadable], false)

/-- The idle loop of lines 245-251:
`while (1) { M5.update(); if (M5.BtnA.wasClicked()) esp_restart(); vTaskDelay(100ms); }`.
`k` is the index of the current iteration; the bound is how many
iterations we observe. -/
def idleLoopAux (clicked : Nat → Bool) (k : Nat) : Nat → List Ev × Outcome
  | 0 => ([], Outcome.looping)
  | n + 1 =>
    if clicked k then
      ([Ev.m5Update, Ev.espRestart], Outcome.restarted)
    else
      let r := idleLoopAux clicked (k + 1) n
      (Ev.m5Update :: Ev.delayMs 100 :: r.1, r.2)

/-- Trace of lines 201-242 after a successful SD-card initialization, up
to and including the `tinyusb_driver_install` call (the part before the
mount). -/
def midTrace (env : Env) : List Ev :=
  [Ev.logI "Success initialize sdcard.", Ev.pushImage 2,
   Ev.cardPrintInfo env.card,
   Ev.mscStorageInitSdmmc env.card env.mscStorageInitRet]

/-- Trace of lines 210-242: `esp_vfs_fat_info` (return code unchecked),
the size log, the two `drawString` calls, and `tinyusb_driver_install`
with the static descriptor configuration. -/
def tailTrace (env : Env) : List Ev :=
  [Ev.fatInfo BASE_PATH env.fatInfoRet,
   Ev.logI "Size",
   Ev.drawFreeString env.fatInfoFree,
   Ev.drawTotalString env.fatInfoTotal,
   Ev.logI "USB MSC initialization",
   Ev.tusbDriverInstall tusb_cfg env.tusbInstallRet]

/-- Model of `app_main` (lines 128-252), observed for at most `sdFuel` SD-card
initialization attempts and `loopIters` idle-loop iterations.  Returns
the trace of actions and how the observed run ended. -/
def app_main (env : Env) (sdFuel loopIters : Nat) : List Ev × Outcome :=
  let t0 := preTrace env
  if env.spiBusInitRet ≠ ESP_OK then
    (t0 ++ [Ev.logE "Failed to initialize bus."], Outcome.earlyReturn)
  else
    let t1 := t0 ++ [Ev.sdspiHostInitDevice env.sdspiHostInitRet]
    let sd := sdInitLoopAux env.sdmmcCardInitRet env.card 0 sdFuel
    if sd.2 then
      let t2 := t1 ++ sd.1 ++ midTrace env
      if env.mscStorageInitRet ≠ ESP_OK then
        (t2, Outcome.aborted "tinyusb_msc_storage_init_sdmmc")
      else
        let m := mountRun env
        if m.2 then (t2 ++ m.1, Outcome.aborted "tinyusb_msc_storage_mount")
        else
          let t3 := t2 ++ m.1 ++ tailTrace env
          if env.tusbInstallRet ≠ ESP_OK then
            (t3, Outcome.aborted "tinyusb_driver_install")
          else
            let r := idleLoopAux env.btnClicked 0 loopIters
            (t3 ++ [Ev.logI "USB MSC initialization DONE"] ++ r.1, r.2)
    else
      (t1 ++ sd.1, Outcome.sdRetrying)

/-! ## Classifiers over actions -/

/-- Is this action the `tinyusb_msc_storage_init_sdmmc` call? -/
def isStorageInit : Ev → Bool
  | Ev.mscStorageInitSdmmc _ _ => true
  | _ => false

/-- Is this action an `sdmmc_card_init` attempt? -/
def isCardInit : Ev → Bool
  | Ev.sdmmcCardInit _ _ => true
  | _ => false

/-- Is this action the `tinyusb_msc_storage_mount` call? -/
def isMountEv : Ev → Bool
  | Ev.mscStorageMount _ _ => true
  | _ => false

/-- Is this action the `tinyusb_driver_install` call? -/
def isTusbInstall : Ev → Bool
  | Ev.tusbDriverInstall _ _ => true
  | _ => false

/-- Is this action the `malloc` of the card structure? -/
def isMalloc : Ev → Bool
  | Ev.mallocCard _ => true
  | _ => false

/-- Is this action a `free`? -/
def isFree : Ev → Bool
  | Ev.freeCard => true
  | _ => false

/-- Is this action the `sdspi_host_init_device` call? -/
def isSdspiInit : Ev → Bool
  | Ev.sdspiHostInitDevice _ => true
  | _ => false

/-- The card-pointer value an action passes to a library call, when it
passes one (`sdmmc_card_init`, `sdmmc_card_print_info`,
`tinyusb_msc_storage_init_sdmmc`). -/
def cardOf : Ev → Option (Option Unit)
  | Ev.sdmmcCardInit c _ => some c
  | Ev.cardPrintInfo c => some c
  | Ev.mscStorageInitSdmmc c _ => some c
  | _ => none

/-- The filesystem path an action passes to a library call, when it
passes one (`tinyusb_msc_storage_mount`, `opendir`, `esp_vfs_fat_info`). -/
def pathOf : Ev → Option String
  | Ev.mscStorageMount p _ => some p
  | Ev.opendir p _ => some p
  | Ev.fatInfo p _ => some p
  | _ => none

/-- The bring-up phase an action belongs to, following the spec sentence:
SPI bus (1), SD card (2), filesystem mount (3), status text (4),
USB stack install (5), idle (6); `none` for actions outside those six
steps (logs, delays, images, auxiliary calls). -/
def phase : Ev → Option Nat
  | Ev.spiBusInitialize _ => some 1
  | Ev.sdmmcCardInit _ _ => some 2
  | Ev.mscStorageMount _ _ => some 3
  | Ev.drawFreeString _ => some 4
  | Ev.drawTotalString _ => some 4
  | Ev.tusbDriverInstall _ _ => some 5
  | Ev.m5Update => some 6
  | Ev.espRestart => some 6
  | _ => none

/-- One failed pass of the SD retry loop: the failed attempt, the error
log, and the one-second delay. -/
def sdFailCycle (ret : Nat → EspErr) (card : Option Unit) (i : Nat) : List Ev :=
  [Ev.sdmmcCardInit card (ret i), Ev.logE "Failed to initialize sdcard.",
   Ev.delayMs 1000]

/-! ## Concrete environments for evaluation -/

/-- An environment in which every library call succeeds, the card has one
file, and the button is never clicked. -/
def envAllOk : Env :=
  { mallocOk := true
    spiBusInitRet := ESP_OK
    sdspiHostInitRet := ESP_OK
    sdmmcCardInitRet := fun _ => ESP_OK
    mscStorageInitRet := ESP_OK
    mscStorageMountRet := ESP_OK
    opendirOk := true
    opendirErrnoENOENT := false
    dirEntries := ["README.TXT"]
    fatInfoRet := ESP_OK
    fatInfoTotal := 15931539456
    fatInfoFree := 15931506688
    tusbInstallRet := ESP_OK
    btnClicked := fun _ => false }

/-- As `envAllOk`, but `spi_bus_initialize` fails. -/
def envSpiFail : Env := { envAllOk with spiBusInitRet := ESP_FAIL }

/-- As `envAllOk`, but `sdspi_host_init_device` fails. -/
def envSdspiFail : Env := { envAllOk with sdspiHostInitRet := ESP_FAIL }

/-- As `envAllOk`, but `malloc` returns `NULL`. -/
def envNoMalloc : Env := { envAllOk with mallocOk := false }

/-- As `envAllOk`, but the first `sdmmc_card_init` attempt fails and the
second succeeds. -/
def envRetryOnce : Env :=
  { envAllOk with sdmmcCardInitRet := fun i => if i = 0 then ESP_FAIL else ESP_OK }

/-- As `envAllOk`, but button A is clicked in every idle-loop iteration. -/
def envClick : Env := { envAllOk with btnClicked := fun _ => true }

/-! ## Lemmas about the SD retry loop -/

theorem sdInitLoopAux_true_iff (ret : Nat → EspErr) (card : Option Unit)
    (k fuel : Nat) :
    (sdInitLoopAux ret card k fuel).2 = true ↔ ∃ i < fuel, ret (k + i) = ESP_OK := by
  induction fuel generalizing k with
  | zero => simp [sdInitLoopAux]
  | succ n ih =>
    by_cases h : ret k = ESP_OK
    · simp only [sdInitLoopAux, if_pos h]
      exact ⟨fun _ => ⟨0, by omega, by simpa using h⟩, fun _ => by trivial⟩
    · simp only [sdInitLoopAux, if_neg h]
      rw [ih (k + 1)]
      constructor
      · rintro ⟨i, hi, hr⟩
        exact ⟨i + 1, by omega, by rw [show k + (i + 1) = k + 1 + i by omega]; exact hr⟩
      · rintro ⟨i, hi, hr⟩
        match i with
        | 0 => exact absurd (by simpa using hr) h
        | j + 1 =>
          exact ⟨j, by omega, by rw [show k + 1 + j = k + (j + 1) by omega]; exact hr⟩

theorem sdInitLoopAux_mem (ret : Nat → EspErr) (card : Option Unit)
    (k fuel : Nat) (e : Ev) (he : e ∈ (sdInitLoopAux ret card k fuel).1) :
    (∃ i, e = Ev.sdmmcCardInit card (ret (k + i))) ∨
      e = Ev.logE "Failed to initialize sdcard." ∨ e = Ev.delayMs 1000 := by
  induction fuel generalizing k with
  | zero => simp [sdInitLoopAux] at he
  | succ n ih =>
    by_cases h : ret k = ESP_OK
    · simp only [sdInitLoopAux, if_pos h, List.mem_singleton] at he
      exact Or.inl ⟨0, by simpa using he⟩
    · simp only [sdInitLoopAux, if_neg h, List.mem_cons] at he
      rcases he with h1 | h1 | h1 | h1
      · exact Or.inl ⟨0, by simpa using h1⟩
      · exact Or.inr (Or.inl h1)
      · exact Or.inr (Or.inr h1)
      · rcases ih (k + 1) h1 with ⟨i, hi⟩ | h2 | h2
        · exact Or.inl ⟨i + 1, by rw [show k + (i + 1) = k + 1 + i by omega]; exact hi⟩
        · exact Or.inr (Or.inl h2)
        · exact Or.inr (Or.inr h2)

theorem sdFailCycle_range_shift (ret : Nat → EspErr) (card : Option Unit)
    (k n : Nat) :
    (List.range (n + 1)).flatMap (fun i => sdFailCycle ret card (k + i)) =
      sdFailCycle ret card k ++
        (List.range n).flatMap (fun i => sdFailCycle ret card (k + 1 + i)) := by
  rw [List.range_succ_eq_map, List.flatMap_cons, List.flatMap_map]
  congr 1
  apply List.flatMap_congr
  intro i _
  congr 1
  omega

theorem sdInitLoopAux_least (ret : Nat → EspErr) (card : Option Unit)
    (n : Nat) :
    ∀ k fuel, n < fuel → ret (k + n) = ESP_OK → (∀ i < n, ret (k + i) ≠ ESP_OK) →
    sdInitLoopAux ret card k fuel =
      ((List.range n).flatMap (fun i => sdFailCycle ret card (k + i)) ++
        [Ev.sdmmcCardInit card (ret (k + n))], true) := by
  induction n with
  | zero =>
    intro k fuel hlt hok _
    match fuel, hlt with
    | m + 1, _ =>
      simp only [sdInitLoopAux, if_pos (by simpa using hok)]
      simp
  | succ n ih =>
    intro k fuel hlt hok hmin
    match fuel, hlt with
    | m + 1, hlt =>
      have h0 : ret k ≠ ESP_OK := by
        have := hmin 0 (by omega); simpa using this
      simp only [sdInitLoopAux, if_neg h0]
      have hrec := ih (k + 1) m (by omega)
        (by rw [show k + 1 + n = k + (n + 1) by omega]; exact hok)
        (fun i hi => by
          rw [show k + 1 + i = k + (i + 1) by omega]
          exact hmin (i + 1) (by omega))
      rw [hrec, sdFailCycle_range_shift]
      have hkn : k + 1 + n = k + (n + 1) := by omega
      rw [hkn]
      simp [sdFailCycle]

/-! ## Lemmas about the idle loop -/

theorem idleLoopAux_mem (clicked : Nat → Bool) (k n : Nat) (e : Ev)
    (he : e ∈ (idleLoopAux clicked k n).1) :
    e = Ev.m5Update ∨ e = Ev.delayMs 100 ∨ e = Ev.espRestart := by
  induction n generalizing k with
  | zero => simp [idleLoopAux] at he
  | succ m ih =>
    by_cases h : clicked k
    · simp only [idleLoopAux, if_pos h, List.mem_cons, List.mem_singleton,
        List.not_mem_nil, or_false] at he
      rcases he with h1 | h1
      · exact Or.inl h1
      · exact Or.inr (Or.inr h1)
    · simp only [idleLoopAux, if_neg h, List.mem_cons] at he
      rcases he with h1 | h1 | h1
      · exact Or.inl h1
      · exact Or.inr (Or.inl h1)
      · exact ih (k + 1) h1

theorem idleLoopAux_noclick (clicked : Nat → Bool) :
    ∀ n k, (∀ i < n, clicked (k + i) = false) →
    idleLoopAux clicked k n =
      (List.flatten (List.replicate n [Ev.m5Update, Ev.delayMs 100]), Outcome.looping) := by
  intro n
  induction n with
  | zero => intro k _; simp [idleLoopAux]
  | succ m ih =>
    intro k hnone
    have h0 : clicked k = false := by have := hnone 0 (by omega); simpa using this
    simp only [idleLoopAux, h0, Bool.false_eq_true, if_false]
    rw [ih (k + 1) (fun i hi => by
      rw [show k + 1 + i = k + (i + 1) by omega]
      exact hnone (i + 1) (by omega))]
    simp [List.replicate_succ]

theorem idleLoopAux_restarted_iff (clicked : Nat → Bool) :
    ∀ n k, (idleLoopAux clicked k n).2 = Outcome.restarted ↔
      ∃ i < n, clicked (k + i) = true := by
  intro n
  induction n with
  | zero => intro k; simp [idleLoopAux]
  | succ m ih =>
    intro k
    by_cases h : clicked k
    · simp only [idleLoopAux, if_pos h]
      exact ⟨fun _ => ⟨0, by omega, by simpa using h⟩, fun _ => by trivial⟩
    · simp only [idleLoopAux, if_neg h]
      rw [ih (k + 1)]
      constructor
      · rintro ⟨i, hi, hc⟩
        exact ⟨i + 1, by omega, by rw [show k + (i + 1) = k + 1 + i by omega]; exact hc⟩
      · rintro ⟨i, hi, hc⟩
        match i with
        | 0 => exact absurd (by simpa using hc) h
        | j + 1 =>
          exact ⟨j, by omega, by rw [show k + 1 + j = k + (j + 1) by omega]; exact hc⟩

theorem idleLoopAux_outcome (clicked : Nat → Bool) :
    ∀ n k, (idleLoopAux clicked k n).2 = Outcome.looping ∨
      (idleLoopAux clicked k n).2 = Outcome.restarted := by
  intro n
  induction n with
  | zero => intro k; simp [idleLoopAux]
  | succ m ih =>
    intro k
    by_cases h : clicked k
    · simp [idleLoopAux, h]
    · simpa only [idleLoopAux, if_neg h] using ih (k + 1)

/-! ## The success path of `app_main` -/

theorem app_main_success (env : Env) (sdFuel loopIters : Nat)
    (hspi : env.spiBusInitRet = ESP_OK)
    (hsd : (sdInitLoopAux env.sdmmcCardInitRet env.card 0 sdFuel).2 = true)
    (hmsc : env.mscStorageInitRet = ESP_OK)
    (hmount : env.mscStorageMountRet = ESP_OK)
    (htusb : env.tusbInstallRet = ESP_OK) :
    app_main env sdFuel loopIters =
      (preTrace env ++ [Ev.sdspiHostInitDevice env.sdspiHostInitRet]
        ++ (sdInitLoopAux env.sdmmcCardInitRet env.card 0 sdFuel).1
        ++ midTrace env ++ (mountRun env).1 ++ tailTrace env
        ++ [Ev.logI "USB MSC initialization DONE"]
        ++ (idleLoopAux env.btnClicked 0 loopIters).1,
       (idleLoopAux env.btnClicked 0 loopIters).2) := by
  have hm2 : (mountRun env).2 = false := by
    simp [mountRun, hmount, apply_ite Prod.snd]
  simp [app_main, hspi, hsd, hmsc, htusb, hm2, List.append_assoc]

/-! ## The remaining control-flow branches of `app_main` -/

theorem mountRun_snd_true (env : Env) (h : env.mscStorageMountRet ≠ ESP_OK) :
    (mountRun env).2 = true := by
  simp [mountRun, h]

theorem mountRun_snd_false (env : Env) (h : env.mscStorageMountRet = ESP_OK) :
    (mountRun env).2 = false := by
  simp [mountRun, h, apply_ite Prod.snd]

theorem app_main_spiFail (env : Env) (sdFuel loopIters : Nat)
    (hspi : env.spiBusInitRet ≠ ESP_OK) :
    app_main env sdFuel loopIters =
      (preTrace env ++ [Ev.logE "Failed to initialize bus."], Outcome.earlyReturn) := by
  simp [app_main, hspi]

theorem app_main_sdRetry (env : Env) (sdFuel loopIters : Nat)
    (hspi : env.spiBusInitRet = ESP_OK)
    (hsd : (sdInitLoopAux env.sdmmcCardInitRet env.card 0 sdFuel).2 = false) :
    app_main env sdFuel loopIters =
      (preTrace env ++ [Ev.sdspiHostInitDevice env.sdspiHostInitRet]
        ++ (sdInitLoopAux env.sdmmcCardInitRet env.card 0 sdFuel).1,
       Outcome.sdRetrying) := by
  simp [app_main, hspi, hsd, List.append_assoc]

theorem app_main_storageAbort (env : Env) (sdFuel loopIters : Nat)
    (hspi : env.spiBusInitRet = ESP_OK)
    (hsd : (sdInitLoopAux env.sdmmcCardInitRet env.card 0 sdFuel).2 = true)
    (hmsc : env.mscStorageInitRet ≠ ESP_OK) :
    app_main env sdFuel loopIters =
      (preTrace env ++ [Ev.sdspiHostInitDevice env.sdspiHostInitRet]
        ++ (sdInitLoopAux env.sdmmcCardInitRet env.card 0 sdFuel).1
        ++ midTrace env,
       Outcome.aborted "tinyusb_msc_storage_init_sdmmc") := by
  simp [app_main, hspi, hsd, hmsc, List.append_assoc]

theorem app_main_mountAbort (env : Env) (sdFuel loopIters : Nat)
    (hspi : env.spiBusInitRet = ESP_OK)
    (hsd : (sdInitLoopAux env.sdmmcCardInitRet env.card 0 sdFuel).2 = true)
    (hmsc : env.mscStorageInitRet = ESP_OK)
    (hmount : env.mscStorageMountRet ≠ ESP_OK) :
    app_main env sdFuel loopIters =
      (preTrace env ++ [Ev.sdspiHostInitDevice env.sdspiHostInitRet]
        ++ (sdInitLoopAux env.sdmmcCardInitRet env.card 0 sdFuel).1
        ++ midTrace env ++ (mountRun env).1,
       Outcome.aborted "tinyusb_msc_storage_mount") := by
  simp [app_main, hspi, hsd, hmsc, mountRun_snd_true env hmount, List.append_assoc]

theorem app_main_tusbAbort (env : Env) (sdFuel loopIters : Nat)
    (hspi : env.spiBusInitRet = ESP_OK)
    (hsd : (sdInitLoopAux env.sdmmcCardInitRet env.card 0 sdFuel).2 = true)
    (hmsc : env.mscStorageInitRet = ESP_OK)
    (hmount : env.mscStorageMountRet = ESP_OK)
    (htusb : env.tusbInstallRet ≠ ESP_OK) :
    app_main env sdFuel loopIters =
      (preTrace env ++ [Ev.sdspiHostInitDevice env.sdspiHostInitRet]
        ++ (sdInitLoopAux env.sdmmcCardInitRet env.card 0 sdFuel).1
        ++ midTrace env ++ (mountRun env).1 ++ tailTrace env,
       Outcome.aborted "tinyusb_driver_install") := by
  simp [app_main, hspi, hsd, hmsc, htusb, mountRun_snd_false env hmount,
    List.append_assoc]

/-- The second component of the SD retry loop does not depend on the card
pointer passed to `sdmmc_card_init`. -/
theorem sdInitLoopAux_snd_indep (ret : Nat → EspErr) (c1 c2 : Option Unit) :
    ∀ fuel k, (sdInitLoopAux ret c1 k fuel).2 = (sdInitLoopAux ret c2 k fuel).2 := by
  intro fuel
  induction fuel with
  | zero => intro k; rfl
  | succ n ih =>
    intro k
    by_cases h : ret k = ESP_OK
    · simp [sdInitLoopAux, h]
    · simpa only [sdInitLoopAux, if_neg h] using ih (k + 1)

/-- The outcome of `app_main` as a decision tree over the checked return
codes: only `spi_bus_initialize`, `sdmmc_card_init`,
`tinyusb_msc_storage_init_sdmmc`, `tinyusb_msc_storage_mount`,
`tinyusb_driver_install` and the button influence it. -/
theorem app_main_outcome (env : Env) (sdFuel loopIters : Nat) :
    (app_main env sdFuel loopIters).2 =
      if env.spiBusInitRet ≠ ESP_OK then Outcome.earlyReturn
      else if (sdInitLoopAux env.sdmmcCardInitRet env.card 0 sdFuel).2 then
        if env.mscStorageInitRet ≠ ESP_OK then
          Outcome.aborted "tinyusb_msc_storage_init_sdmmc"
        else if env.mscStorageMountRet ≠ ESP_OK then
          Outcome.aborted "tinyusb_msc_storage_mount"
        else if env.tusbInstallRet ≠ ESP_OK then
          Outcome.aborted "tinyusb_driver_install"
        else (idleLoopAux env.btnClicked 0 loopIters).2
      else Outcome.sdRetrying := by
  by_cases hspi : env.spiBusInitRet = ESP_OK
  · rcases Bool.eq_false_or_eq_true
      (sdInitLoopAux env.sdmmcCardInitRet env.card 0 sdFuel).2 with hsd | hsd
    on_goal 2 => rw [app_main_sdRetry env sdFuel loopIters hspi hsd]; simp [hspi, hsd]
    · by_cases hmsc : env.mscStorageInitRet = ESP_OK
      · by_cases hmount : env.mscStorageMountRet = ESP_OK
        · by_cases htusb : env.tusbInstallRet = ESP_OK
          · rw [app_main_success env sdFuel loopIters hspi hsd hmsc hmount htusb]
            simp [hspi, hsd, hmsc, hmount, htusb]
          · rw [app_main_tusbAbort env sdFuel loopIters hspi hsd hmsc hmount htusb]
            simp [hspi, hsd, hmsc, hmount, htusb]
        · rw [app_main_mountAbort env sdFuel loopIters hspi hsd hmsc hmount]
          simp [hspi, hsd, hmsc, hmount]
      · rw [app_main_storageAbort env sdFuel loopIters hspi hsd hmsc]
        simp [hspi, hsd, hmsc]
  · rw [app_main_spiFail env sdFuel loopIters hspi]
    simp [hspi]

/-! ## Per-segment characterizations -/

theorem preTrace_mem (env : Env) (e : Ev) (he : e ∈ preTrace env) :
    e = Ev.m5Begin ∨ e = Ev.displayConfig ∨ e = Ev.pushImage 1 ∨
    (∃ s, e = Ev.logI s) ∨ e = Ev.mallocCard env.mallocOk ∨
    (∃ s, e = Ev.logD s) ∨ e = Ev.spiBusInitialize env.spiBusInitRet := by
  by_cases h : env.mallocOk <;>
    simp only [preTrace, h, if_pos, if_neg, List.append_nil, List.mem_append,
      List.mem_cons, List.mem_singleton, List.not_mem_nil, or_false,
      if_true, if_false] at he <;>
    aesop

theorem mountRun_mem (env : Env) (e : Ev) (he : e ∈ (mountRun env).1) :
    e = Ev.logI "Mount storage..." ∨
    e = Ev.mscStorageMount BASE_PATH env.mscStorageMountRet ∨
    e = Ev.logI "ls command output:" ∨
    e = Ev.opendir BASE_PATH env.opendirOk ∨
    (∃ s, e = Ev.printEntry s) ∨
    e = Ev.logDirMissing ∨ e = Ev.logDirUnreadable := by
  by_cases hm : env.mscStorageMountRet ≠ ESP_OK
  · simp only [mountRun, if_pos hm, List.mem_cons, List.mem_singleton,
      List.not_mem_nil, or_false] at he
    aesop
  · by_cases ho : env.opendirOk <;>
      simp only [mountRun, if_neg hm, ho, if_true, if_false, List.mem_append,
        List.mem_cons, List.mem_singleton, List.not_mem_nil, or_false,
        List.mem_map] at he <;>
      aesop

theorem midTrace_mem (env : Env) (e : Ev) (he : e ∈ midTrace env) :
    e = Ev.logI "Success initialize sdcard." ∨ e = Ev.pushImage 2 ∨
    e = Ev.cardPrintInfo env.card ∨
    e = Ev.mscStorageInitSdmmc env.card env.mscStorageInitRet := by
  simp only [midTrace, List.mem_cons, List.mem_singleton, List.not_mem_nil,
    or_false] at he
  aesop

theorem tailTrace_mem (env : Env) (e : Ev) (he : e ∈ tailTrace env) :
    e = Ev.fatInfo BASE_PATH env.fatInfoRet ∨ e = Ev.logI "Size" ∨
    e = Ev.drawFreeString env.fatInfoFree ∨
    e = Ev.drawTotalString env.fatInfoTotal ∨
    e = Ev.logI "USB MSC initialization" ∨
    e = Ev.tusbDriverInstall tusb_cfg env.tusbInstallRet := by
  simp only [tailTrace, List.mem_cons, List.mem_singleton, List.not_mem_nil,
    or_false] at he
  aesop

/-- Any action in any observed run of `app_main` comes from one of the
program's eight textual segments. -/
theorem app_main_mem (env : Env) (sdFuel loopIters : Nat) (e : Ev)
    (he : e ∈ (app_main env sdFuel loopIters).1) :
    e ∈ preTrace env ∨ e = Ev.logE "Failed to initialize bus." ∨
    e = Ev.sdspiHostInitDevice env.sdspiHostInitRet ∨
    e ∈ (sdInitLoopAux env.sdmmcCardInitRet env.card 0 sdFuel).1 ∨
    e ∈ midTrace env ∨ e ∈ (mountRun env).1 ∨ e ∈ tailTrace env ∨
    e = Ev.logI "USB MSC initialization DONE" ∨
    e ∈ (idleLoopAux env.btnClicked 0 loopIters).1 := by
  by_cases hspi : env.spiBusInitRet = ESP_OK
  · rcases Bool.eq_false_or_eq_true
      (sdInitLoopAux env.sdmmcCardInitRet env.card 0 sdFuel).2 with hsd | hsd
    on_goal 2 =>
      rw [app_main_sdRetry env sdFuel loopIters hspi hsd] at he
      simp only [List.mem_append, List.mem_singleton] at he
      tauto
    by_cases hmsc : env.mscStorageInitRet = ESP_OK
    · by_cases hmount : env.mscStorageMountRet = ESP_OK
      · by_cases htusb : env.tusbInstallRet = ESP_OK
        · rw [app_main_success env sdFuel loopIters hspi hsd hmsc hmount htusb] at he
          simp only [List.mem_append, List.mem_singleton] at he
          tauto
        · rw [app_main_tusbAbort env sdFuel loopIters hspi hsd hmsc hmount htusb] at he
          simp only [List.mem_append, List.mem_singleton] at he
          tauto
      · rw [app_main_mountAbort env sdFuel loopIters hspi hsd hmsc hmount] at he
        simp only [List.mem_append, List.mem_singleton] at he
        tauto
    · rw [app_main_storageAbort env sdFuel loopIters hspi hsd hmsc] at he
      simp only [List.mem_append, List.mem_singleton] at he
      tauto
  · rw [app_main_spiFail env sdFuel loopIters hspi] at he
    simp only [List.mem_append, List.mem_singleton] at he
    tauto

/-! ## Phase projections of the segments -/

theorem filterMap_phase_preTrace (env : Env) :
    (preTrace env).filterMap phase = [1] := by
  by_cases h : env.mallocOk <;> simp [preTrace, h, phase]

theorem filterMap_phase_midTrace (env : Env) :
    (midTrace env).filterMap phase = [] := by
  simp [midTrace, phase]

theorem filterMap_phase_tailTrace (env : Env) :
    (tailTrace env).filterMap phase = [4, 4, 5] := by
  simp [tailTrace, phase]

theorem filterMap_phase_mountRun (env : Env) :
    (mountRun env).1.filterMap phase = [3] := by
  by_cases hm : env.mscStorageMountRet ≠ ESP_OK
  · simp [mountRun, hm, phase]
  · by_cases ho : env.opendirOk
    · simp only [mountRun, if_neg hm, ho, if_true]
      simp [phase, List.filterMap_map, Function.comp]
    · simp only [mountRun, if_neg hm, ho, if_false]
      by_cases he : env.opendirErrnoENOENT <;> simp [he, phase]

theorem filterMap_phase_sdLoop (ret : Nat → EspErr) (card : Option Unit)
    (k fuel : Nat) (x : Nat)
    (hx : x ∈ ((sdInitLoopAux ret card k fuel).1.filterMap phase)) : x = 2 := by
  rcases List.mem_filterMap.1 hx with ⟨a, ha, hpa⟩
  rcases sdInitLoopAux_mem ret card k fuel a ha with ⟨i, hi⟩ | h | h <;>
    subst_vars <;> simp [phase] at hpa <;> omega

theorem filterMap_phase_idleLoop (clicked : Nat → Bool) (k n : Nat) (x : Nat)
    (hx : x ∈ ((idleLoopAux clicked k n).1.filterMap phase)) : x = 6 := by
  rcases List.mem_filterMap.1 hx with ⟨a, ha, hpa⟩
  rcases idleLoopAux_mem clicked k n a ha with h | h | h <;>
    subst_vars <;> simp [phase] at hpa <;> omega

/-! ## Sortedness helper -/

theorem pairwise_le_of_all_eq (c : Nat) :
    ∀ {l : List Nat}, (∀ x ∈ l, x = c) → List.Pairwise (fun a b => a ≤ b) l := by
  intro l
  induction l with
  | nil => intro _; exact List.Pairwise.nil
  | cons a t ih =>
    intro h
    refine List.Pairwise.cons ?_ (ih fun x hx => h x (List.mem_cons_of_mem a hx))
    intro b hb
    rw [h a (List.mem_cons_self a t), h b (List.mem_cons_of_mem a hb)]

theorem pairwise_le_phases {l2 l6 : List Nat}
    (h2 : ∀ x ∈ l2, x = 2) (h6 : ∀ x ∈ l6, x = 6) :
    List.Pairwise (fun a b => a ≤ b) (1 :: (l2 ++ 3 :: 4 :: 4 :: 5 :: l6)) := by
  have htail : ∀ b ∈ (3 : Nat) :: 4 :: 4 :: 5 :: l6, 3 ≤ b := by
    intro b hb
    simp only [List.mem_cons] at hb
    rcases hb with h | h | h | h | h
    · omega
    · omega
    · omega
    · omega
    · rw [h6 b h]; omega
  refine List.Pairwise.cons ?_ ?_
  · intro b hb
    rcases List.mem_append.1 hb with h | h
    · rw [h2 b h]; omega
    · have := htail b h; omega
  · rw [List.pairwise_append]
    refine ⟨pairwise_le_of_all_eq 2 h2, ?_, ?_⟩
    · refine List.Pairwise.cons (fun b hb => ?_) ?_
      · simp only [List.mem_cons] at hb
        rcases hb with h | h | h | h
        · omega
        · omega
        · omega
        · rw [h6 b h]; omega
      refine List.Pairwise.cons (fun b hb => ?_) ?_
      · simp only [List.mem_cons] at hb
        rcases hb with h | h | h
        · omega
        · omega
        · rw [h6 b h]; omega
      refine List.Pairwise.cons (fun b hb => ?_) ?_
      · simp only [List.mem_cons] at hb
        rcases hb with h | h
        · omega
        · rw [h6 b h]; omega
      refine List.Pairwise.cons (fun b hb => ?_) (pairwise_le_of_all_eq 6 h6)
      · rw [h6 b hb]; omega
    · intro a ha b hb
      rw [h2 a ha]
      have := htail b hb; omega

/-! ## Small facts about the loops used by several claims -/

/-- The first observed event of the SD retry loop is always an
`sdmmc_card_init` attempt with the stored card pointer. -/
theorem sdInitLoopAux_head_mem (ret : Nat → EspErr) (card : Option Unit)
    (k fuel : Nat) (hf : 0 < fuel) :
    Ev.sdmmcCardInit card (ret k) ∈ (sdInitLoopAux ret card k fuel).1 := by
  match fuel, hf with
  | m + 1, _ =>
    by_cases h : ret k = ESP_OK <;> simp [sdInitLoopAux, h]

theorem sdInitLoopAux_pos_of_true (ret : Nat → EspErr) (card : Option Unit)
    (k fuel : Nat) (h : (sdInitLoopAux ret card k fuel).2 = true) : 0 < fuel := by
  match fuel with
  | 0 => simp [sdInitLoopAux] at h
  | m + 1 => omega

theorem idleLoopAux_update_mem (clicked : Nat → Bool) (k n : Nat) (hn : 0 < n) :
    Ev.m5Update ∈ (idleLoopAux clicked k n).1 := by
  match n, hn with
  | m + 1, _ =>
    by_cases h : clicked k <;> simp [idleLoopAux, h]

theorem idleLoopAux_restart_mem_iff (clicked : Nat → Bool) :
    ∀ n k, Ev.espRestart ∈ (idleLoopAux clicked k n).1 ↔
      ∃ i < n, clicked (k + i) = true := by
  intro n
  induction n with
  | zero => intro k; simp [idleLoopAux]
  | succ m ih =>
    intro k
    by_cases h : clicked k
    · simp only [idleLoopAux, if_pos h]
      refine ⟨fun _ => ⟨0, by omega, by simpa using h⟩, fun _ => by simp⟩
    · simp only [idleLoopAux, if_neg h, List.mem_cons]
      rw [ih (k + 1)]
      constructor
      · rintro (h1 | h1 | ⟨i, hi, hc⟩)
        · exact absurd h1 (by simp)
        · exact absurd h1 (by simp)
        · exact ⟨i + 1, by omega, by rw [show k + (i + 1) = k + 1 + i by omega]; exact hc⟩
      · rintro ⟨i, hi, hc⟩
        match i with
        | 0 => exact absurd (by simpa using hc) h
        | j + 1 =>
          exact Or.inr (Or.inr ⟨j, by omega,
            by rw [show k + 1 + j = k + (j + 1) by omega]; exact hc⟩)

/-- After a successful SD-card initialization the trace always continues
with `midTrace` (the `tinyusb_msc_storage_init_sdmmc` call), whatever
happens later. -/
theorem app_main_sdok_decomp (env : Env) (sdFuel loopIters : Nat)
    (hspi : env.spiBusInitRet = ESP_OK)
    (hsd : (sdInitLoopAux env.sdmmcCardInitRet env.card 0 sdFuel).2 = true) :
    ∃ t, (app_main env sdFuel loopIters).1 =
      preTrace env ++ [Ev.sdspiHostInitDevice env.sdspiHostInitRet]
        ++ (sdInitLoopAux env.sdmmcCardInitRet env.card 0 sdFuel).1
        ++ midTrace env ++ t := by
  by_cases hmsc : env.mscStorageInitRet = ESP_OK
  · by_cases hmount : env.mscStorageMountRet = ESP_OK
    · by_cases htusb : env.tusbInstallRet = ESP_OK
      · exact ⟨(mountRun env).1 ++ tailTrace env
          ++ [Ev.logI "USB MSC initialization DONE"]
          ++ (idleLoopAux env.btnClicked 0 loopIters).1,
          by rw [app_main_success env sdFuel loopIters hspi hsd hmsc hmount htusb]
             try simp [List.append_assoc]⟩
      · exact ⟨(mountRun env).1 ++ tailTrace env,
          by rw [app_main_tusbAbort env sdFuel loopIters hspi hsd hmsc hmount htusb]
             try simp [List.append_assoc]⟩
    · exact ⟨(mountRun env).1,
        by rw [app_main_mountAbort env sdFuel loopIters hspi hsd hmsc hmount]
           try simp [List.append_assoc]⟩
  · exact ⟨[],
      by rw [app_main_storageAbort env sdFuel loopIters hspi hsd hmsc]
         try simp [List.append_assoc]⟩

/-! ## The claims -/

/-- C1: with the SPI bus initialized, `sdmmc_card_init` is retried in a
loop — each failed attempt is followed by the error log and a fixed
1000 ms delay, until the first attempt that returns `ESP_OK` — and
control proceeds past the loop (the `tinyusb_msc_storage_init_sdmmc`
call appears in the trace) exactly when some observed attempt returned
`ESP_OK`. -/
theorem claim_C1 (env : Env) (sdFuel loopIters : Nat)
    (hspi : env.spiBusInitRet = ESP_OK) :
    ((∃ e ∈ (app_main env sdFuel loopIters).1, isStorageInit e = true) ↔
      ∃ i < sdFuel, env.sdmmcCardInitRet i = ESP_OK) ∧
    (∀ n < sdFuel, env.sdmmcCardInitRet n = ESP_OK →
      (∀ i < n, env.sdmmcCardInitRet i ≠ ESP_OK) →
      sdInitLoopAux env.sdmmcCardInitRet env.card 0 sdFuel =
        ((List.range n).flatMap
            (fun i => sdFailCycle env.sdmmcCardInitRet env.card i) ++
          [Ev.sdmmcCardInit env.card ESP_OK], true)) := by
  constructor
  · constructor
    · rintro ⟨e, he, hse⟩
      by_contra hno
      push_neg at hno
      have hsd : (sdInitLoopAux env.sdmmcCardInitRet env.card 0 sdFuel).2 = false := by
        rcases Bool.eq_false_or_eq_true
          (sdInitLoopAux env.sdmmcCardInitRet env.card 0 sdFuel).2 with h | h
        · rcases (sdInitLoopAux_true_iff env.sdmmcCardInitRet env.card 0 sdFuel).1 h
            with ⟨i, hi, hr⟩
          exact absurd (by simpa using hr) (hno i hi)
        · exact h
      rw [app_main_sdRetry env sdFuel loopIters hspi hsd] at he
      rcases List.mem_append.1 he with h1 | h1
      · rcases List.mem_append.1 h1 with h2 | h2
        · rcases preTrace_mem env e h2 with h | h | h | ⟨s, h⟩ | h | ⟨s, h⟩ | h <;>
            subst h <;> simp [isStorageInit] at hse
        · rcases List.mem_singleton.1 h2 with h
          subst h; simp [isStorageInit] at hse
      · rcases sdInitLoopAux_mem env.sdmmcCardInitRet env.card 0 sdFuel e h1 with
          ⟨i, h⟩ | h | h <;> subst h <;> simp [isStorageInit] at hse
    · rintro ⟨i, hi, hr⟩
      have hsd : (sdInitLoopAux env.sdmmcCardInitRet env.card 0 sdFuel).2 = true := by
        exact (sdInitLoopAux_true_iff env.sdmmcCardInitRet env.card 0 sdFuel).2
          ⟨i, hi, by simpa using hr⟩
      rcases app_main_sdok_decomp env sdFuel loopIters hspi hsd with ⟨t, ht⟩
      refine ⟨Ev.mscStorageInitSdmmc env.card env.mscStorageInitRet, ?_, by
        simp [isStorageInit]⟩
      rw [ht]
      have hmid : Ev.mscStorageInitSdmmc env.card env.mscStorageInitRet ∈
          midTrace env := by simp [midTrace]
      simp only [List.mem_append]
      tauto
  · intro n hn hok hmin
    have h := sdInitLoopAux_least env.sdmmcCardInitRet env.card n 0 sdFuel hn
      (by simpa using hok) (fun i hi => by simpa using hmin i hi)
    rw [h]
    simp only [Nat.zero_add]
    rw [hok]

/-- Concrete instantiation of C1 in the all-success environment with one
observed attempt. -/
theorem claim_C1_witness :
    ((∃ e ∈ (app_main envAllOk 1 1).1, isStorageInit e = true) ↔
      ∃ i < 1, envAllOk.sdmmcCardInitRet i = ESP_OK) ∧
    (∀ n < 1, envAllOk.sdmmcCardInitRet n = ESP_OK →
      (∀ i < n, envAllOk.sdmmcCardInitRet i ≠ ESP_OK) →
      sdInitLoopAux envAllOk.sdmmcCardInitRet envAllOk.card 0 1 =
        ((List.range n).flatMap
            (fun i => sdFailCycle envAllOk.sdmmcCardInitRet envAllOk.card i) ++
          [Ev.sdmmcCardInit envAllOk.card ESP_OK], true)) :=
  claim_C1 envAllOk 1 1 rfl

/-- C8: if `spi_bus_initialize` returns non-`ESP_OK`, `app_main` logs the
bus error and returns immediately: the trace contains no
`sdmmc_card_init`, no mount, no storage initialization and no
`tinyusb_driver_install` action, so the device never enumerates as a USB
mass-storage device. -/
theorem claim_C8 (env : Env) (sdFuel loopIters : Nat)
    (hspi : env.spiBusInitRet ≠ ESP_OK) :
    (app_main env sdFuel loopIters).2 = Outcome.earlyReturn ∧
    Ev.logE "Failed to initialize bus." ∈ (app_main env sdFuel loopIters).1 ∧
    (∀ e ∈ (app_main env sdFuel loopIters).1,
      isCardInit e = false ∧ isMountEv e = false ∧ isStorageInit e = false ∧
      isTusbInstall e = false) := by
  rw [app_main_spiFail env sdFuel loopIters hspi]
  refine ⟨rfl, by simp, ?_⟩
  intro e he
  rcases List.mem_append.1 he with h | h
  · rcases preTrace_mem env e h with h1 | h1 | h1 | ⟨s, h1⟩ | h1 | ⟨s, h1⟩ | h1 <;>
      subst h1 <;> exact ⟨rfl, rfl, rfl, rfl⟩
  · have h1 := List.mem_singleton.1 h
    subst h1
    exact ⟨rfl, rfl, rfl, rfl⟩

/-- Concrete instantiation of C8 with a failing SPI bus. -/
theorem claim_C8_witness :
    (app_main envSpiFail 1 1).2 = Outcome.earlyReturn ∧
    Ev.logE "Failed to initialize bus." ∈ (app_main envSpiFail 1 1).1 ∧
    (∀ e ∈ (app_main envSpiFail 1 1).1,
      isCardInit e = false ∧ isMountEv e = false ∧ isStorageInit e = false ∧
      isTusbInstall e = false) :=
  claim_C8 envSpiFail 1 1 (by decide)

/-- C9: when `malloc` returns `NULL`, `app_main` only logs a debug
message and continues: the `NULL` card pointer is passed to
`sdmmc_card_init`, to `sdmmc_card_print_info` and to the USB storage
configuration, and the run does not return early. -/
theorem claim_C9 (env : Env) (sdFuel loopIters : Nat)
    (hmal : env.mallocOk = false)
    (hspi : env.spiBusInitRet = ESP_OK)
    (hsd : ∃ i < sdFuel, env.sdmmcCardInitRet i = ESP_OK) :
    Ev.logD "could not locate new sdmmc_card_t" ∈ (app_main env sdFuel loopIters).1 ∧
    (∃ r, Ev.sdmmcCardInit none r ∈ (app_main env sdFuel loopIters).1) ∧
    Ev.cardPrintInfo none ∈ (app_main env sdFuel loopIters).1 ∧
    Ev.mscStorageInitSdmmc none env.mscStorageInitRet ∈
      (app_main env sdFuel loopIters).1 ∧
    (app_main env sdFuel loopIters).2 ≠ Outcome.earlyReturn := by
  have hcard : env.card = none := by simp [Env.card, hmal]
  have hsd2 : (sdInitLoopAux env.sdmmcCardInitRet env.card 0 sdFuel).2 = true := by
    rcases hsd with ⟨i, hi, hr⟩
    exact (sdInitLoopAux_true_iff env.sdmmcCardInitRet env.card 0 sdFuel).2
      ⟨i, hi, by simpa using hr⟩
  rcases app_main_sdok_decomp env sdFuel loopIters hspi hsd2 with ⟨t, ht⟩
  have hfuel : 0 < sdFuel :=
    sdInitLoopAux_pos_of_true env.sdmmcCardInitRet env.card 0 sdFuel hsd2
  have hhead := sdInitLoopAux_head_mem env.sdmmcCardInitRet env.card 0 sdFuel hfuel
  rw [hcard] at hhead
  refine ⟨?_, ⟨env.sdmmcCardInitRet 0, ?_⟩, ?_, ?_, ?_⟩
  · rw [ht]
    have hp : Ev.logD "could not locate new sdmmc_card_t" ∈ preTrace env := by
      simp [preTrace, hmal]
    simp only [List.mem_append]
    tauto
  · rw [ht]
    rw [hcard] at ht ⊢
    simp only [List.mem_append]
    tauto
  · rw [ht]
    have hp : Ev.cardPrintInfo none ∈ midTrace env := by simp [midTrace, hcard]
    simp only [List.mem_append]
    tauto
  · rw [ht]
    have hp : Ev.mscStorageInitSdmmc none env.mscStorageInitRet ∈ midTrace env := by
      simp [midTrace, hcard]
    simp only [List.mem_append]
    tauto
  · rw [app_main_outcome env sdFuel loopIters]
    simp only [hspi, hsd2, ne_eq, not_true_eq_false, if_false, if_true]
    split
    · simp
    · split
      · simp
      · split
        · simp
        · rcases idleLoopAux_outcome env.btnClicked loopIters 0 with h | h <;>
            simp [h]

/-- Concrete instantiation of C9 with a `NULL` card pointer. -/
theorem claim_C9_witness :
    Ev.logD "could not locate new sdmmc_card_t" ∈ (app_main envNoMalloc 1 1).1 ∧
    (∃ r, Ev.sdmmcCardInit none r ∈ (app_main envNoMalloc 1 1).1) ∧
    Ev.cardPrintInfo none ∈ (app_main envNoMalloc 1 1).1 ∧
    Ev.mscStorageInitSdmmc none envNoMalloc.mscStorageInitRet ∈
      (app_main envNoMalloc 1 1).1 ∧
    (app_main envNoMalloc 1 1).2 ≠ Outcome.earlyReturn :=
  claim_C9 envNoMalloc 1 1 rfl rfl ⟨0, by omega, rfl⟩

/-- C10: in the idle loop a clicked iteration immediately calls
`esp_restart`; an unclicked one only updates input and sleeps 100 ms;
the only possible actions are update, sleep and restart; the restart is
reached exactly when some observed iteration sees a click; and the loop
otherwise only keeps looping. -/
theorem claim_C10 (clicked : Nat → Bool) (k n : Nat) :
    (idleLoopAux clicked k (n + 1) =
      if clicked k then ([Ev.m5Update, Ev.espRestart], Outcome.restarted)
      else (Ev.m5Update :: Ev.delayMs 100 :: (idleLoopAux clicked (k + 1) n).1,
        (idleLoopAux clicked (k + 1) n).2)) ∧
    (∀ e ∈ (idleLoopAux clicked k n).1,
      e = Ev.m5Update ∨ e = Ev.delayMs 100 ∨ e = Ev.espRestart) ∧
    (Ev.espRestart ∈ (idleLoopAux clicked k n).1 ↔
      ∃ i < n, clicked (k + i) = true) ∧
    ((idleLoopAux clicked k n).2 = Outcome.restarted ↔
      ∃ i < n, clicked (k + i) = true) ∧
    ((idleLoopAux clicked k n).2 = Outcome.looping ∨
      (idleLoopAux clicked k n).2 = Outcome.restarted) := by
  refine ⟨?_, idleLoopAux_mem clicked k n, idleLoopAux_restart_mem_iff clicked n k,
    idleLoopAux_restarted_iff clicked n k, idleLoopAux_outcome clicked n k⟩
  by_cases h : clicked k <;> simp [idleLoopAux, h]

/-- C4: after a fully successful initialization the observed outcome of
`app_main` is the idle-loop outcome for every iteration bound; every
loop action is the input update, the 100 ms sleep or the restart; and
with no click the observed loop trace is exactly `loopIters` iterations
of update-then-sleep (for every bound, i.e. the loop never ends). -/
theorem claim_C4 (env : Env) (sdFuel loopIters : Nat)
    (hspi : env.spiBusInitRet = ESP_OK)
    (hsd : ∃ i < sdFuel, env.sdmmcCardInitRet i = ESP_OK)
    (hmsc : env.mscStorageInitRet = ESP_OK)
    (hmount : env.mscStorageMountRet = ESP_OK)
    (htusb : env.tusbInstallRet = ESP_OK) :
    (app_main env sdFuel loopIters).2 = (idleLoopAux env.btnClicked 0 loopIters).2 ∧
    (∀ e ∈ (idleLoopAux env.btnClicked 0 loopIters).1,
      e = Ev.m5Update ∨ e = Ev.delayMs 100 ∨ e = Ev.espRestart) ∧
    ((∀ i < loopIters, env.btnClicked i = false) →
      idleLoopAux env.btnClicked 0 loopIters =
        (List.flatten (List.replicate loopIters [Ev.m5Update, Ev.delayMs 100]),
         Outcome.looping)) := by
  have hsd2 : (sdInitLoopAux env.sdmmcCardInitRet env.card 0 sdFuel).2 = true := by
    rcases hsd with ⟨i, hi, hr⟩
    exact (sdInitLoopAux_true_iff env.sdmmcCardInitRet env.card 0 sdFuel).2
      ⟨i, hi, by simpa using hr⟩
  refine ⟨?_, idleLoopAux_mem env.btnClicked 0 loopIters, ?_⟩
  · rw [app_main_success env sdFuel loopIters hspi hsd2 hmsc hmount htusb]
  · intro h
    exact idleLoopAux_noclick env.btnClicked loopIters 0
      (fun i hi => by simpa using h i hi)

/-- Concrete instantiation of C4 with two observed idle iterations. -/
theorem claim_C4_witness :
    (app_main envAllOk 1 2).2 = (idleLoopAux envAllOk.btnClicked 0 2).2 ∧
    (∀ e ∈ (idleLoopAux envAllOk.btnClicked 0 2).1,
      e = Ev.m5Update ∨ e = Ev.delayMs 100 ∨ e = Ev.espRestart) ∧
    ((∀ i < 2, envAllOk.btnClicked i = false) →
      idleLoopAux envAllOk.btnClicked 0 2 =
        (List.flatten (List.replicate 2 [Ev.m5Update, Ev.delayMs 100]),
         Outcome.looping)) :=
  claim_C4 envAllOk 1 2 rfl ⟨0, by omega, rfl⟩ rfl rfl rfl

/-- Every observed trace of `app_main` is the fixed prefix `preTrace`
followed by events drawn from the later segments only. -/
theorem app_main_decomp_pre (env : Env) (sdFuel loopIters : Nat) :
    ∃ t, (app_main env sdFuel loopIters).1 = preTrace env ++ t ∧
      ∀ e ∈ t,
        e = Ev.logE "Failed to initialize bus." ∨
        e = Ev.sdspiHostInitDevice env.sdspiHostInitRet ∨
        e ∈ (sdInitLoopAux env.sdmmcCardInitRet env.card 0 sdFuel).1 ∨
        e ∈ midTrace env ∨ e ∈ (mountRun env).1 ∨ e ∈ tailTrace env ∨
        e = Ev.logI "USB MSC initialization DONE" ∨
        e ∈ (idleLoopAux env.btnClicked 0 loopIters).1 := by
  by_cases hspi : env.spiBusInitRet = ESP_OK
  · rcases Bool.eq_false_or_eq_true
      (sdInitLoopAux env.sdmmcCardInitRet env.card 0 sdFuel).2 with hsd | hsd
    on_goal 2 =>
      refine ⟨[Ev.sdspiHostInitDevice env.sdspiHostInitRet]
        ++ (sdInitLoopAux env.sdmmcCardInitRet env.card 0 sdFuel).1, ?_, ?_⟩
      · rw [app_main_sdRetry env sdFuel loopIters hspi hsd]
        simp [List.append_assoc]
      · intro e he
        rcases List.mem_append.1 he with h | h
        · have := List.mem_singleton.1 h; tauto
        · tauto
    by_cases hmsc : env.mscStorageInitRet = ESP_OK
    · by_cases hmount : env.mscStorageMountRet = ESP_OK
      · by_cases htusb : env.tusbInstallRet = ESP_OK
        · refine ⟨[Ev.sdspiHostInitDevice env.sdspiHostInitRet]
            ++ (sdInitLoopAux env.sdmmcCardInitRet env.card 0 sdFuel).1
            ++ midTrace env ++ (mountRun env).1 ++ tailTrace env
            ++ [Ev.logI "USB MSC initialization DONE"]
            ++ (idleLoopAux env.btnClicked 0 loopIters).1, ?_, ?_⟩
          · rw [app_main_success env sdFuel loopIters hspi hsd hmsc hmount htusb]
            simp [List.append_assoc]
          · intro e he
            simp only [List.mem_append, List.mem_singleton] at he
            tauto
        · refine ⟨[Ev.sdspiHostInitDevice env.sdspiHostInitRet]
            ++ (sdInitLoopAux env.sdmmcCardInitRet env.card 0 sdFuel).1
            ++ midTrace env ++ (mountRun env).1 ++ tailTrace env, ?_, ?_⟩
          · rw [app_main_tusbAbort env sdFuel loopIters hspi hsd hmsc hmount htusb]
            simp [List.append_assoc]
          · intro e he
            simp only [List.mem_append, List.mem_singleton] at he
            tauto
      · refine ⟨[Ev.sdspiHostInitDevice env.sdspiHostInitRet]
          ++ (sdInitLoopAux env.sdmmcCardInitRet env.card 0 sdFuel).1
          ++ midTrace env ++ (mountRun env).1, ?_, ?_⟩
        · rw [app_main_mountAbort env sdFuel loopIters hspi hsd hmsc hmount]
          simp [List.append_assoc]
        · intro e he
          simp only [List.mem_append, List.mem_singleton] at he
          tauto
    · refine ⟨[Ev.sdspiHostInitDevice env.sdspiHostInitRet]
        ++ (sdInitLoopAux env.sdmmcCardInitRet env.card 0 sdFuel).1
        ++ midTrace env, ?_, ?_⟩
      · rw [app_main_storageAbort env sdFuel loopIters hspi hsd hmsc]
        simp [List.append_assoc]
      · intro e he
        simp only [List.mem_append, List.mem_singleton] at he
        tauto
  · refine ⟨[Ev.logE "Failed to initialize bus."], ?_, ?_⟩
    · rw [app_main_spiFail env sdFuel loopIters hspi]
    · intro e he
      have := List.mem_singleton.1 he
      tauto

/-- C6: in every observed run the card structure is allocated exactly
once (the single `malloc` at line 143), never freed, and every library
call that takes the card pointer receives exactly the pointer produced
by that single allocation — the handle is never reassigned. -/
theorem claim_C6 (env : Env) (sdFuel loopIters : Nat) :
    ((app_main env sdFuel loopIters).1.countP isMalloc = 1) ∧
    ((app_main env sdFuel loopIters).1.countP isFree = 0) ∧
    (∀ e ∈ (app_main env sdFuel loopIters).1, ∀ c, cardOf e = some c →
      c = env.card) := by
  obtain ⟨t, ht, hprop⟩ := app_main_decomp_pre env sdFuel loopIters
  have hseg : ∀ e ∈ t, isMalloc e = false ∧ isFree e = false := by
    intro e he
    rcases hprop e he with h | h | h | h | h | h | h | h
    · subst h; exact ⟨rfl, rfl⟩
    · subst h; exact ⟨rfl, rfl⟩
    · rcases sdInitLoopAux_mem env.sdmmcCardInitRet env.card 0 sdFuel e h with
        ⟨i, h1⟩ | h1 | h1 <;> subst h1 <;> exact ⟨rfl, rfl⟩
    · rcases midTrace_mem env e h with h1 | h1 | h1 | h1 <;> subst h1 <;>
        exact ⟨rfl, rfl⟩
    · rcases mountRun_mem env e h with h1 | h1 | h1 | h1 | ⟨s, h1⟩ | h1 | h1 <;>
        subst h1 <;> exact ⟨rfl, rfl⟩
    · rcases tailTrace_mem env e h with h1 | h1 | h1 | h1 | h1 | h1 <;>
        subst h1 <;> exact ⟨rfl, rfl⟩
    · subst h; exact ⟨rfl, rfl⟩
    · rcases idleLoopAux_mem env.btnClicked 0 loopIters e h with h1 | h1 | h1 <;>
        subst h1 <;> exact ⟨rfl, rfl⟩
  have hpre1 : (preTrace env).countP isMalloc = 1 := by
    by_cases h : env.mallocOk <;>
      simp [preTrace, h, isMalloc, List.countP_cons, List.countP_append]
  have hpre0 : (preTrace env).countP isFree = 0 := by
    by_cases h : env.mallocOk <;>
      simp [preTrace, h, isFree, List.countP_cons, List.countP_append]
  refine ⟨?_, ?_, ?_⟩
  · rw [ht, List.countP_append, hpre1,
      List.countP_eq_zero.2 (fun a ha => by simp [(hseg a ha).1])]
  · rw [ht, List.countP_append, hpre0,
      List.countP_eq_zero.2 (fun a ha => by simp [(hseg a ha).2])]
  · intro e he c hc
    rcases app_main_mem env sdFuel loopIters e he with h | h | h | h | h | h | h | h | h
    · rcases preTrace_mem env e h with h1 | h1 | h1 | ⟨s, h1⟩ | h1 | ⟨s, h1⟩ | h1 <;>
        subst h1 <;> simp [pathOf, cardOf] at hc
    · subst h; simp [cardOf] at hc
    · subst h; simp [cardOf] at hc
    · rcases sdInitLoopAux_mem env.sdmmcCardInitRet env.card 0 sdFuel e h with
        ⟨i, h1⟩ | h1 | h1 <;> subst h1 <;> simp [cardOf] at hc <;>
        exact hc.symm
    · rcases midTrace_mem env e h with h1 | h1 | h1 | h1 <;> subst h1 <;>
        simp [cardOf] at hc <;>
        exact hc.symm
    · rcases mountRun_mem env e h with h1 | h1 | h1 | h1 | ⟨s, h1⟩ | h1 | h1 <;>
        subst h1 <;> simp [cardOf] at hc
    · rcases tailTrace_mem env e h with h1 | h1 | h1 | h1 | h1 | h1 <;>
        subst h1 <;> simp [cardOf] at hc
    · subst h; simp [cardOf] at hc
    · rcases idleLoopAux_mem env.btnClicked 0 loopIters e h with h1 | h1 | h1 <;>
        subst h1 <;> simp [cardOf] at hc

/-- C7: every path an action of any run passes to a filesystem call
(`tinyusb_msc_storage_mount`, `opendir`, `esp_vfs_fat_info`) is the one
constant `BASE_PATH`, and `BASE_PATH` is `"/data"`. -/
theorem claim_C7 (env : Env) (sdFuel loopIters : Nat) :
    BASE_PATH = "/data" ∧
    ∀ e ∈ (app_main env sdFuel loopIters).1, ∀ p, pathOf e = some p →
      p = BASE_PATH := by
  refine ⟨rfl, ?_⟩
  intro e he p hp
  rcases app_main_mem env sdFuel loopIters e he with h | h | h | h | h | h | h | h | h
  · rcases preTrace_mem env e h with h1 | h1 | h1 | ⟨s, h1⟩ | h1 | ⟨s, h1⟩ | h1 <;>
      subst h1 <;> simp [pathOf] at hp
  · subst h; simp [pathOf] at hp
  · subst h; simp [pathOf] at hp
  · rcases sdInitLoopAux_mem env.sdmmcCardInitRet env.card 0 sdFuel e h with
      ⟨i, h1⟩ | h1 | h1 <;> subst h1 <;> simp [pathOf] at hp
  · rcases midTrace_mem env e h with h1 | h1 | h1 | h1 <;> subst h1 <;>
      simp [pathOf] at hp
  · rcases mountRun_mem env e h with h1 | h1 | h1 | h1 | ⟨s, h1⟩ | h1 | h1 <;>
      subst h1 <;> simp [pathOf] at hp <;> exact hp.symm
  · rcases tailTrace_mem env e h with h1 | h1 | h1 | h1 | h1 | h1 <;>
      subst h1 <;> simp [pathOf] at hp <;> exact hp.symm
  · subst h; simp [pathOf] at hp
  · rcases idleLoopAux_mem env.btnClicked 0 loopIters e h with h1 | h1 | h1 <;>
      subst h1 <;> simp [pathOf] at hp

/-- C5: on a run that reaches the USB install step, the
`tinyusb_driver_install` action occurs exactly once, and every install
action in any run carries exactly the compile-time constants
`descriptor_config`, `string_desc_arr` (with count 5) and
`desc_configuration`, assembled in `tusb_cfg`; the embedding's
descriptor records are immutable constants, as in the source, so no
action ever passes modified descriptor data. -/
theorem claim_C5 (env : Env) (sdFuel loopIters : Nat)
    (hspi : env.spiBusInitRet = ESP_OK)
    (hsd : ∃ i < sdFuel, env.sdmmcCardInitRet i = ESP_OK)
    (hmsc : env.mscStorageInitRet = ESP_OK)
    (hmount : env.mscStorageMountRet = ESP_OK) :
    ((app_main env sdFuel loopIters).1.countP isTusbInstall = 1) ∧
    (∀ e ∈ (app_main env sdFuel loopIters).1, isTusbInstall e = true →
      e = Ev.tusbDriverInstall tusb_cfg env.tusbInstallRet) ∧
    tusb_cfg.device_descriptor = descriptor_config ∧
    tusb_cfg.string_descriptor = string_desc_arr ∧
    tusb_cfg.string_descriptor_count = string_desc_arr.length ∧
    tusb_cfg.configuration_descriptor = desc_configuration := by
  have hsd2 : (sdInitLoopAux env.sdmmcCardInitRet env.card 0 sdFuel).2 = true := by
    rcases hsd with ⟨i, hi, hr⟩
    exact (sdInitLoopAux_true_iff env.sdmmcCardInitRet env.card 0 sdFuel).2
      ⟨i, hi, by simpa using hr⟩
  have hpre : (preTrace env).countP isTusbInstall = 0 := by
    by_cases h : env.mallocOk <;>
      simp [preTrace, h, isTusbInstall, List.countP_cons, List.countP_append]
  have hsd0 : ((sdInitLoopAux env.sdmmcCardInitRet env.card 0 sdFuel).1).countP
      isTusbInstall = 0 :=
    List.countP_eq_zero.2 (fun a ha => by
      rcases sdInitLoopAux_mem env.sdmmcCardInitRet env.card 0 sdFuel a ha with
        ⟨i, h1⟩ | h1 | h1 <;> subst h1 <;> simp [isTusbInstall])
  have hmid : (midTrace env).countP isTusbInstall = 0 := by
    simp [midTrace, isTusbInstall, List.countP_cons]
  have hmnt : ((mountRun env).1).countP isTusbInstall = 0 :=
    List.countP_eq_zero.2 (fun a ha => by
      rcases mountRun_mem env a ha with h1 | h1 | h1 | h1 | ⟨s, h1⟩ | h1 | h1 <;>
        subst h1 <;> simp [isTusbInstall])
  have htail : (tailTrace env).countP isTusbInstall = 1 := by
    simp [tailTrace, isTusbInstall, List.countP_cons]
  have hidle : ((idleLoopAux env.btnClicked 0 loopIters).1).countP
      isTusbInstall = 0 :=
    List.countP_eq_zero.2 (fun a ha => by
      rcases idleLoopAux_mem env.btnClicked 0 loopIters a ha with h1 | h1 | h1 <;>
        subst h1 <;> simp [isTusbInstall])
  refine ⟨?_, ?_, rfl, rfl, rfl, rfl⟩
  · by_cases htusb : env.tusbInstallRet = ESP_OK
    · rw [app_main_success env sdFuel loopIters hspi hsd2 hmsc hmount htusb]
      simp [List.countP_append, hpre, hsd0, hmid, hmnt, htail, hidle,
        isTusbInstall, List.countP_cons]
    · rw [app_main_tusbAbort env sdFuel loopIters hspi hsd2 hmsc hmount htusb]
      simp [List.countP_append, hpre, hsd0, hmid, hmnt, htail,
        isTusbInstall, List.countP_cons]
  · intro e he hte
    rcases app_main_mem env sdFuel loopIters e he with h | h | h | h | h | h | h | h | h
    · rcases preTrace_mem env e h with h1 | h1 | h1 | ⟨s, h1⟩ | h1 | ⟨s, h1⟩ | h1 <;>
        subst h1 <;> simp [isTusbInstall] at hte
    · subst h; simp [isTusbInstall] at hte
    · subst h; simp [isTusbInstall] at hte
    · rcases sdInitLoopAux_mem env.sdmmcCardInitRet env.card 0 sdFuel e h with
        ⟨i, h1⟩ | h1 | h1 <;> subst h1 <;> simp [isTusbInstall] at hte
    · rcases midTrace_mem env e h with h1 | h1 | h1 | h1 <;> subst h1 <;>
        simp [isTusbInstall] at hte
    · rcases mountRun_mem env e h with h1 | h1 | h1 | h1 | ⟨s, h1⟩ | h1 | h1 <;>
        subst h1 <;> simp [isTusbInstall] at hte
    · rcases tailTrace_mem env e h with h1 | h1 | h1 | h1 | h1 | h1 <;> subst h1 <;>
        first
        | rfl
        | simp [isTusbInstall] at hte
    · subst h; simp [isTusbInstall] at hte
    · rcases idleLoopAux_mem env.btnClicked 0 loopIters e h with h1 | h1 | h1 <;>
        subst h1 <;> simp [isTusbInstall] at hte

/-- Concrete instantiation of C5 in the all-success environment. -/
theorem claim_C5_witness :
    ((app_main envAllOk 1 1).1.countP isTusbInstall = 1) ∧
    (∀ e ∈ (app_main envAllOk 1 1).1, isTusbInstall e = true →
      e = Ev.tusbDriverInstall tusb_cfg envAllOk.tusbInstallRet) ∧
    tusb_cfg.device_descriptor = descriptor_config ∧
    tusb_cfg.string_descriptor = string_desc_arr ∧
    tusb_cfg.string_descriptor_count = string_desc_arr.length ∧
    tusb_cfg.configuration_descriptor = desc_configuration :=
  claim_C5 envAllOk 1 1 rfl ⟨0, by omega, rfl⟩ rfl rfl

/-- C2 is false as stated: in `envSdspiFail` the library call
`sdspi_host_init_device` fails (`ESP_FAIL`), yet the run proceeds all
the way into the idle loop — the same outcome as the all-success run —
and the failing call is made exactly once, so its failure is neither
aborted on, nor retried, nor handled in any way. -/
theorem claim_C2_counterexample :
    envSdspiFail.sdspiHostInitRet ≠ ESP_OK ∧
    (app_main envSdspiFail 1 1).2 = Outcome.looping ∧
    (app_main envSdspiFail 1 1).2 = (app_main envAllOk 1 1).2 ∧
    (app_main envSdspiFail 1 1).1.countP isSdspiInit = 1 := by
  refine ⟨by decide, by decide, by decide, by decide⟩

/-- C2 (amended): the startup return codes that are checked are handled
as the spec says — `spi_bus_initialize` by log-and-return,
`sdmmc_card_init` by the retry loop, and the three
`ESP_ERROR_CHECK`-wrapped calls by abort — but the return codes of
`sdspi_host_init_device` and `esp_vfs_fat_info` are ignored (the
outcome is unchanged whatever they return), and a `NULL` result of
`malloc` only logs a debug message without changing control flow. -/
theorem claim_C2 (env : Env) (sdFuel loopIters : Nat) :
    (env.spiBusInitRet ≠ ESP_OK →
      (app_main env sdFuel loopIters).2 = Outcome.earlyReturn) ∧
    (env.spiBusInitRet = ESP_OK →
      (∀ i < sdFuel, env.sdmmcCardInitRet i ≠ ESP_OK) →
      (app_main env sdFuel loopIters).2 = Outcome.sdRetrying) ∧
    (env.spiBusInitRet = ESP_OK →
      (∃ i < sdFuel, env.sdmmcCardInitRet i = ESP_OK) →
      env.mscStorageInitRet ≠ ESP_OK →
      (app_main env sdFuel loopIters).2 =
        Outcome.aborted "tinyusb_msc_storage_init_sdmmc") ∧
    (env.spiBusInitRet = ESP_OK →
      (∃ i < sdFuel, env.sdmmcCardInitRet i = ESP_OK) →
      env.mscStorageInitRet = ESP_OK → env.mscStorageMountRet ≠ ESP_OK →
      (app_main env sdFuel loopIters).2 =
        Outcome.aborted "tinyusb_msc_storage_mount") ∧
    (env.spiBusInitRet = ESP_OK →
      (∃ i < sdFuel, env.sdmmcCardInitRet i = ESP_OK) →
      env.mscStorageInitRet = ESP_OK → env.mscStorageMountRet = ESP_OK →
      env.tusbInstallRet ≠ ESP_OK →
      (app_main env sdFuel loopIters).2 =
        Outcome.aborted "tinyusb_driver_install") ∧
    (∀ r, (app_main { env with sdspiHostInitRet := r } sdFuel loopIters).2 =
      (app_main env sdFuel loopIters).2) ∧
    (∀ r, (app_main { env with fatInfoRet := r } sdFuel loopIters).2 =
      (app_main env sdFuel loopIters).2) ∧
    (∀ b, (app_main { env with mallocOk := b } sdFuel loopIters).2 =
      (app_main env sdFuel loopIters).2) := by
  have hsdtrue : (∃ i < sdFuel, env.sdmmcCardInitRet i = ESP_OK) →
      (sdInitLoopAux env.sdmmcCardInitRet env.card 0 sdFuel).2 = true := by
    rintro ⟨i, hi, hr⟩
    exact (sdInitLoopAux_true_iff env.sdmmcCardInitRet env.card 0 sdFuel).2
      ⟨i, hi, by simpa using hr⟩
  refine ⟨?_, ?_, ?_, ?_, ?_, ?_, ?_, ?_⟩
  · intro hspi
    rw [app_main_spiFail env sdFuel loopIters hspi]
  · intro hspi hall
    have hsd : (sdInitLoopAux env.sdmmcCardInitRet env.card 0 sdFuel).2 = false := by
      rcases Bool.eq_false_or_eq_true
        (sdInitLoopAux env.sdmmcCardInitRet env.card 0 sdFuel).2 with h | h
      · rcases (sdInitLoopAux_true_iff env.sdmmcCardInitRet env.card 0 sdFuel).1 h
          with ⟨i, hi, hr⟩
        exact absurd (by simpa using hr) (hall i hi)
      · exact h
    rw [app_main_sdRetry env sdFuel loopIters hspi hsd]
  · intro hspi hex hmsc
    rw [app_main_storageAbort env sdFuel loopIters hspi (hsdtrue hex) hmsc]
  · intro hspi hex hmsc hmount
    rw [app_main_mountAbort env sdFuel loopIters hspi (hsdtrue hex) hmsc hmount]
  · intro hspi hex hmsc hmount htusb
    rw [app_main_tusbAbort env sdFuel loopIters hspi (hsdtrue hex) hmsc hmount htusb]
  · intro r
    rw [app_main_outcome { env with sdspiHostInitRet := r } sdFuel loopIters,
      app_main_outcome env sdFuel loopIters]
    rfl
  · intro r
    rw [app_main_outcome { env with fatInfoRet := r } sdFuel loopIters,
      app_main_outcome env sdFuel loopIters]
    rfl
  · intro b
    rw [app_main_outcome { env with mallocOk := b } sdFuel loopIters,
      app_main_outcome env sdFuel loopIters,
      sdInitLoopAux_snd_indep env.sdmmcCardInitRet
        (Env.card { env with mallocOk := b }) env.card sdFuel 0]

/-- Concrete instantiation of the amended C2: a failing SPI bus makes the
run return early, and the ignored `sdspi_host_init_device` code leaves
the all-success outcome unchanged. -/
theorem claim_C2_witness :
    (app_main envSpiFail 1 1).2 = Outcome.earlyReturn ∧
    (app_main { envAllOk with sdspiHostInitRet := ESP_FAIL } 1 1).2 =
      (app_main envAllOk 1 1).2 :=
  ⟨(claim_C2 envSpiFail 1 1).1 (by decide),
   (claim_C2 envAllOk 1 1).2.2.2.2.2.1 ESP_FAIL⟩

theorem filterMap_phase_sdspi (r : EspErr) :
    List.filterMap phase [Ev.sdspiHostInitDevice r] = [] := by
  simp [phase]

theorem filterMap_phase_logI (s : String) :
    List.filterMap phase [Ev.logI s] = [] := by
  simp [phase]

/-- C3: under a successful bring-up the trace realizes the spec's six
steps strictly in order: the phase projection of the trace (SPI bus
init 1, SD-card init 2, mount 3, status text 4, USB install 5, idle 6)
is monotone, and each of the phases 1-5 occurs (phase 6 as soon as one
idle iteration is observed), so no later step runs before an earlier
one has completed. -/
theorem claim_C3 (env : Env) (sdFuel loopIters : Nat)
    (hspi : env.spiBusInitRet = ESP_OK)
    (hsd : ∃ i < sdFuel, env.sdmmcCardInitRet i = ESP_OK)
    (hmsc : env.mscStorageInitRet = ESP_OK)
    (hmount : env.mscStorageMountRet = ESP_OK)
    (htusb : env.tusbInstallRet = ESP_OK) :
    ((app_main env sdFuel loopIters).1.filterMap phase).Pairwise
      (fun a b => a ≤ b) ∧
    1 ∈ (app_main env sdFuel loopIters).1.filterMap phase ∧
    2 ∈ (app_main env sdFuel loopIters).1.filterMap phase ∧
    3 ∈ (app_main env sdFuel loopIters).1.filterMap phase ∧
    4 ∈ (app_main env sdFuel loopIters).1.filterMap phase ∧
    5 ∈ (app_main env sdFuel loopIters).1.filterMap phase ∧
    (0 < loopIters → 6 ∈ (app_main env sdFuel loopIters).1.filterMap phase) := by
  have hsd2 : (sdInitLoopAux env.sdmmcCardInitRet env.card 0 sdFuel).2 = true := by
    rcases hsd with ⟨i, hi, hr⟩
    exact (sdInitLoopAux_true_iff env.sdmmcCardInitRet env.card 0 sdFuel).2
      ⟨i, hi, by simpa using hr⟩
  have hfuel : 0 < sdFuel :=
    sdInitLoopAux_pos_of_true env.sdmmcCardInitRet env.card 0 sdFuel hsd2
  have hhead := sdInitLoopAux_head_mem env.sdmmcCardInitRet env.card 0 sdFuel hfuel
  have h2 : ∀ x ∈ (sdInitLoopAux env.sdmmcCardInitRet env.card 0
      sdFuel).1.filterMap phase, x = 2 :=
    fun x hx => filterMap_phase_sdLoop env.sdmmcCardInitRet env.card 0 sdFuel x hx
  have h6 : ∀ x ∈ (idleLoopAux env.btnClicked 0 loopIters).1.filterMap phase,
      x = 6 :=
    fun x hx => filterMap_phase_idleLoop env.btnClicked 0 loopIters x hx
  rw [app_main_success env sdFuel loopIters hspi hsd2 hmsc hmount htusb]
  simp only [List.filterMap_append, filterMap_phase_preTrace,
    filterMap_phase_midTrace, filterMap_phase_tailTrace,
    filterMap_phase_mountRun, phase, List.filterMap_cons_none,
    List.filterMap_nil, List.append_assoc, List.nil_append, List.append_nil,
    List.singleton_append, List.cons_append]
  refine ⟨pairwise_le_phases h2 h6, by simp, ?_, by simp, by simp, by simp, ?_⟩
  · have hmem : 2 ∈ (sdInitLoopAux env.sdmmcCardInitRet env.card 0
        sdFuel).1.filterMap phase :=
      List.mem_filterMap.2 ⟨Ev.sdmmcCardInit env.card (env.sdmmcCardInitRet 0),
        hhead, by simp [phase]⟩
    simp only [List.mem_cons, List.mem_append]
    tauto
  · intro hl
    have hup := idleLoopAux_update_mem env.btnClicked 0 loopIters hl
    have hmem : 6 ∈ (idleLoopAux env.btnClicked 0 loopIters).1.filterMap phase :=
      List.mem_filterMap.2 ⟨Ev.m5Update, hup, by simp [phase]⟩
    simp only [List.mem_cons, List.mem_append]
    tauto

/-- Concrete instantiation of C3 in the all-success environment. -/
theorem claim_C3_witness :
    ((app_main envAllOk 1 1).1.filterMap phase).Pairwise (fun a b => a ≤ b) ∧
    1 ∈ (app_main envAllOk 1 1).1.filterMap phase ∧
    2 ∈ (app_main envAllOk 1 1).1.filterMap phase ∧
    3 ∈ (app_main envAllOk 1 1).1.filterMap phase ∧
    4 ∈ (app_main envAllOk 1 1).1.filterMap phase ∧
    5 ∈ (app_main envAllOk 1 1).1.filterMap phase ∧
    (0 < 1 → 6 ∈ (app_main envAllOk 1 1).1.filterMap phase) :=
  claim_C3 envAllOk 1 1 rfl ⟨0, by omega, rfl⟩ rfl rfl rfl
